import Mathlib

/-!
Verification of the mint-app frontend data layer: the `DataTable` view state
machine (paging, filtering, stale responses), the `SlicerPanel` filter
construction, the `ExportButton` row-limit / Excel-cap logic, and the
`apiService` request builders and error handling, shallowly embedded from the
TypeScript sources.
-/

/-! ## Filters (`ColumnFilters` from SlicerPanel.tsx / api.ts)

A `ColumnFilters` value is a JS object mapping column names to arrays of
selected values.  We embed it as an association list with unique keys,
preserving the object's update-in-place / delete-key semantics.
-/

/-- `ColumnFilters`: column name → selected values (assoc list). -/
def Filters : Type := List (String × List String)

instance : DecidableEq Filters := by
  unfold Filters
  infer_instance

instance : Membership (String × List String) Filters := by
  unfold Filters
  infer_instance

instance : EmptyCollection Filters := ⟨([] : List (String × List String))⟩

/-- JS `newFilters[columnName] = selectedValues`: update the key in place if
present, else append it (object property insertion order). -/
def setKey : List (String × List String) → String → List String → List (String × List String)
  | [], c, vs => [(c, vs)]
  | (k, v) :: rest, c, vs =>
      if k = c then (c, vs) :: rest else (k, v) :: setKey rest c vs

/-- JS `delete newFilters[columnName]`. -/
def delKey (fs : List (String × List String)) (c : String) : List (String × List String) :=
  fs.filter (fun p => ¬(p.1 = c))

/-- `SlicerPanel.handleColumnFilterChange`: an empty selection deletes the
column's key, a non-empty selection stores it. -/
def handleColumnFilterChange (fs : Filters) (c : String) (vs : List String) : Filters :=
  if vs = [] then delKey fs c else setKey fs c vs

/-- `SlicerPanel.handleClearAllFilters`: replaces the filters with `{}`. -/
def handleClearAllFilters : Filters := ([] : List (String × List String))

/-! ### JSON serialization (`JSON.stringify(filters)` in api.ts) -/

/-- JSON string escaping of a single character (quote and backslash). -/
def jsEscapeChar (c : Char) : String :=
  if c = '\"' then "\\\"" else if c = '\\' then "\\\\" else String.singleton c

/-- JSON rendering of a string literal. -/
def jsonStr (s : String) : String :=
  "\"" ++ String.join (s.data.map jsEscapeChar) ++ "\""

/-- JSON rendering of an array of strings. -/
def jsonArr (vs : List String) : String :=
  "[" ++ String.intercalate "," (vs.map jsonStr) ++ "]"

/-- `JSON.stringify` of a `ColumnFilters` object. -/
def serializeFilters (fs : Filters) : String :=
  "\x7b" ++
    String.intercalate ","
      ((fs : List (String × List String)).map (fun p => jsonStr p.1 ++ ":" ++ jsonArr p.2)) ++
    "\x7d"

/-! ## `parseInt` (JS semantics, radix 10)

`parseInt` skips leading whitespace, accepts an optional sign, consumes the
longest leading digit run, and yields `NaN` (here `none`) when no digit is
found.
-/

/-- Accumulate the value of the leading digit run, `none` when there is none. -/
def leadingDigits (cs : List Char) : Option Nat :=
  let ds := cs.takeWhile Char.isDigit
  if ds = [] then none
  else some (ds.foldl (fun a c => a * 10 + (c.toNat - 48)) 0)

/-- JS `parseInt(s)` (radix 10): `none` models `NaN`. -/
def parseIntM (s : String) : Option Int :=
  let cs := s.data.dropWhile Char.isWhitespace
  match cs with
  | '-' :: rest => (leadingDigits rest).map (fun n => -(n : Int))
  | '+' :: rest => (leadingDigits rest).map (fun n => (n : Int))
  | _ => (leadingDigits cs).map (fun n => (n : Int))

/-! ## ExportButton (ColumnSlicer.tsx, second file: `ExportButton`) -/

/-- `EXCEL_MAX_ROWS` from ExportButton. -/
def EXCEL_MAX_ROWS : Int := 1048575

/-- The export-limit radio selection: `'all'`, `'custom'` (with the free-form
text field's contents), or one of the fixed numeric radio values
(10000 / 100000 / 1000000). -/
inductive ExportChoice where
  | all : ExportChoice
  | custom (s : String) : ExportChoice
  | preset (n : Nat) : ExportChoice
deriving DecidableEq

/-- The `limit` computed at the top of `ExportButton.handleExport`:
`undefined` for `'all'`; `parseInt(customLimit) || undefined` for `'custom'`
(so `NaN` and `0` both give `undefined`); `parseInt(exportLimit)` for a
fixed radio value. -/
def computeLimit : ExportChoice → Option Int
  | .all => none
  | .custom s =>
      match parseIntM s with
      | none => none
      | some n => if n = 0 then none else some n
  | .preset n => some (n : Int)

inductive ExportFormat where
  | csv : ExportFormat
  | excel : ExportFormat
deriving DecidableEq

/-- Outcome of `ExportButton.handleExport`: either the Excel warning modal is
shown (and no export issued), or `onExport(format, limit)` is called. -/
inductive ExportDecision where
  | warn : ExportDecision
  | issue (format : ExportFormat) (limit : Option Int) : ExportDecision
deriving DecidableEq

/-- `limit === undefined || limit > EXCEL_MAX_ROWS` from the warning guard. -/
def limitNoneOrExceeds : Option Int → Bool
  | none => true
  | some l => EXCEL_MAX_ROWS < l

/-- `ExportButton.handleExport(format)`: shows the warning when the format is
Excel, `totalRows > EXCEL_MAX_ROWS`, and the limit is absent or itself above
the cap; otherwise calls `onExport(format, limit)`. -/
def handleExportButton (format : ExportFormat) (totalRows : Nat) (choice : ExportChoice) :
    ExportDecision :=
  if format = .excel ∧ EXCEL_MAX_ROWS < (totalRows : Int) ∧
      limitNoneOrExceeds (computeLimit choice) then
    .warn
  else
    .issue format (computeLimit choice)

/-- The warning modal's "Export 1,048,575 rows as Excel" button:
`onExport('excel', EXCEL_MAX_ROWS)`. -/
def warnModalExcelConfirm : ExportDecision :=
  .issue .excel (some EXCEL_MAX_ROWS)

/-- `ExportButton.getEffectiveRows`: the number of rows the selection would
export, shown in the options panel (`parseInt(customLimit) || totalRows`,
`Math.min(_, totalRows)`). -/
def getEffectiveRows (totalRows : Nat) : ExportChoice → Int
  | .all => (totalRows : Int)
  | .custom s =>
      min
        (match parseIntM s with
          | none => (totalRows : Int)
          | some n => if n = 0 then (totalRows : Int) else n)
        (totalRows : Int)
  | .preset n => min (n : Int) (totalRows : Int)

/-! ## DataTable view state machine (DataTable.tsx)

`DataTable` keeps React state `data / currentPage / pageSize / loading /
filters / filteredRows`.  `loadPage` issues an async
`apiService.getFilteredData(size, offset, filters)` call whose response,
whenever it arrives, unconditionally applies `setData / setCurrentPage /
setFilteredRows / setLoading(false)` (or `onError` on failure).  We model the
component as a state plus a list of issued (pending) requests; a response
arrival is a separate event naming the request it answers.
-/

/-- A row of the displayed data (opaque payload). -/
def Row : Type := Nat

instance : DecidableEq Row := by
  unfold Row
  infer_instance

instance : OfNat Row n := ⟨(n : Nat)⟩

/-- The React state of a mounted `DataTable`. -/
structure TableState where
  data : List Row
  currentPage : Nat
  pageSize : Nat
  loading : Bool
  filters : Filters
  filteredRows : Nat
deriving DecidableEq

/-- A `getFilteredData` request as issued by `loadPage`: `loadPage(page, size,
currentFilters)` computes `offset = (page - 1) * size` and calls
`getFilteredData(size, offset, currentFilters)`. -/
structure FetchReq where
  page : Nat
  limit : Nat
  offset : Nat
  filters : Filters
deriving DecidableEq

/-- The response to a `getFilteredData` call: either a payload with its
`filtered_rows` count, or an error message (`response.error`, a thrown
network error, or a non-OK status all land in `loadPage`'s catch). -/
inductive FetchResp where
  | ok (data : List Row) (filtered_rows : Nat) : FetchResp
  | err (msg : String) : FetchResp
deriving DecidableEq

/-- A `DataTable` instance together with its in-flight requests and the
`onError` calls it has made. -/
structure ViewModel where
  st : TableState
  pending : List FetchReq
  errors : List String
deriving DecidableEq

/-- `totalPages = Math.ceil(filteredRows / pageSize)`. -/
def totalPages (st : TableState) : Nat :=
  (st.filteredRows + st.pageSize - 1) / st.pageSize

/-- The synchronous part of `loadPage(page, size, currentFilters)`:
`setLoading(true)` and issue `getFilteredData(size, (page-1)*size,
currentFilters)`. -/
def issueLoadPage (m : ViewModel) (page size : Nat) (currentFilters : Filters) : ViewModel :=
  { m with
    st := { m.st with loading := true }
    pending := m.pending ++ [{ page := page, limit := size, offset := (page - 1) * size,
                               filters := currentFilters }] }

/-- Events a `DataTable` reacts to: the three state-changing UI actions, and
the arrival of the response to the `i`-th issued request. -/
inductive ViewEvent where
  | filtersChange (f : Filters) : ViewEvent
  | pageChange (p : Nat) : ViewEvent
  | pageSizeChange (s : Nat) : ViewEvent
  | arrive (i : Nat) (r : FetchResp) : ViewEvent
deriving DecidableEq

/-- One step of the `DataTable` machine:
* `filtersChange` is `handleFiltersChange`: `setFilters`, `setCurrentPage(1)`,
  `loadPage(1, pageSize, newFilters)`;
* `pageChange` is `handlePageChange`: guarded `loadPage(page, pageSize)`;
* `pageSizeChange` is `handlePageSizeChange`: `setPageSize(size)`,
  `loadPage(1, size)`;
* `arrive` is the continuation inside `loadPage` after `await`: on success
  `setData`, `setCurrentPage(page)`, `setFilteredRows`; on failure `onError`;
  in both cases `setLoading(false)`.  No staleness check is performed. -/
def stepView (m : ViewModel) : ViewEvent → ViewModel
  | .filtersChange f =>
      issueLoadPage { m with st := { m.st with filters := f, currentPage := 1 } }
        1 m.st.pageSize f
  | .pageChange p =>
      if 1 ≤ p ∧ p ≤ totalPages m.st ∧ p ≠ m.st.currentPage then
        issueLoadPage m p m.st.pageSize m.st.filters
      else
        m
  | .pageSizeChange s =>
      issueLoadPage { m with st := { m.st with pageSize := s } } 1 s m.st.filters
  | .arrive i r =>
      match m.pending[i]? with
      | none => m
      | some req =>
          match r with
          | .err e =>
              { m with st := { m.st with loading := false }, errors := m.errors ++ [e] }
          | .ok d fr =>
              { m with st := { m.st with data := d, currentPage := req.page,
                                         filteredRows := fr, loading := false } }

/-- Run a sequence of view events. -/
def runView (m : ViewModel) (evs : List ViewEvent) : ViewModel :=
  evs.foldl stepView m

/-- The `useState` initial values of a freshly mounted `DataTable` with props
`initialData` / `totalRows`. -/
def initTable (initialData : List Row) (totalRows : Nat) : TableState :=
  { data := initialData, currentPage := 1, pageSize := 100, loading := false,
    filters := ∅, filteredRows := totalRows }

/-- A freshly mounted `DataTable` with no in-flight requests. -/
def initView (initialData : List Row) (totalRows : Nat) : ViewModel :=
  { st := initTable initialData totalRows, pending := [], errors := [] }

/-! ## App shell (App.tsx + FileUpload.tsx)

`App` holds `data / loading / error`; the `DataTable` is rendered only when
`data && !loading`, so React unmounts it (destroying its state) whenever that
condition turns false and mounts a fresh instance (with the `useState`
initial values) when it turns true again.
-/

/-- The dataset response held by `App` (`DataResponse`), with its rows,
columns and unfiltered row count. -/
structure DataResponse where
  data : List Row
  columns : List String
  total_rows : Nat
deriving DecidableEq

/-- `App` state plus the mounted table (if any), per the render condition
`data && !loading && <DataTable …/>`. -/
structure AppState where
  data : Option DataResponse
  loading : Bool
  error : Option String
  table : Option TableState
deriving DecidableEq

/-- React reconciliation of `{data && !loading && <DataTable …/>}`: mounted
with fresh `useState` values when the condition holds and no instance exists,
kept when it holds and one exists, unmounted when it fails. -/
def reconcile (s : AppState) : AppState :=
  match s.data, s.loading with
  | some d, false =>
      match s.table with
      | some _ => s
      | none => { s with table := some (initTable d.data d.total_rows) }
  | _, _ => { s with table := none }

/-- Events on the `App` shell: `FileUpload`'s `onLoadingChange`,
`onDataLoaded` (`handleDataLoaded`: `setData`, `setError(null)`), `onError`
(`handleError`: `setError`, `setData(null)`), and the error banner's
`clearData`. -/
inductive AppEvent where
  | loadingChange (b : Bool) : AppEvent
  | dataLoaded (d : DataResponse) : AppEvent
  | appError (e : String) : AppEvent
  | clearData : AppEvent
deriving DecidableEq

/-- One `App` step: apply the state setters, then reconcile the conditional
`DataTable` render. -/
def stepApp (s : AppState) : AppEvent → AppState
  | .loadingChange b => reconcile { s with loading := b }
  | .dataLoaded d => reconcile { s with data := some d, error := none }
  | .appError e => reconcile { s with error := some e, data := none }
  | .clearData => reconcile { s with data := none, error := none }

/-- Run a sequence of `App` events. -/
def runApp (s : AppState) (evs : List AppEvent) : AppState :=
  evs.foldl stepApp s

/-- The event sequence of a successful `FileUpload.handleLoadFile(path)`:
`onLoadingChange(true)`, then (after `loadParquet` and `getData` succeed)
`onDataLoaded(dataResponse.data)`, then `onLoadingChange(false)` in the
`finally`. -/
def loadFileSuccess (d : DataResponse) : List AppEvent :=
  [.loadingChange true, .dataLoaded d, .loadingChange false]

/-! ## Export requests (api.ts `exportCSV` / `exportExcel`, `getFilteredData`)

The `URLSearchParams` built by each method, as an explicit record of the
parameters that end up in the request URL.
-/

/-- The query parameters of an export or filtered-data request. -/
structure RequestParams where
  limitParam : Option String
  offsetParam : Option String
  filtersParam : Option String
deriving DecidableEq

/-- `apiService.exportCSV(limit, offset, filters)` URL parameters: `limit`
and `offset` only when defined, `filters` (JSON-serialized) only when the
object is non-empty. -/
def buildCsvRequest (limit : Option Int) (offset : Option Int) (filters : Filters) :
    RequestParams :=
  { limitParam := limit.map (fun n => toString n)
    offsetParam := offset.map (fun n => toString n)
    filtersParam := if filters = ∅ then none else some (serializeFilters filters) }

/-- `apiService.exportExcel(limit, offset, filters)` URL parameters (same
construction as `exportCSV`, different endpoint). -/
def buildExcelRequest (limit : Option Int) (offset : Option Int) (filters : Filters) :
    RequestParams :=
  { limitParam := limit.map (fun n => toString n)
    offsetParam := offset.map (fun n => toString n)
    filtersParam := if filters = ∅ then none else some (serializeFilters filters) }

/-- `apiService.getFilteredData(limit, offset, filters)` URL parameters:
`limit` and `offset` always appended, `filters` only when non-empty. -/
def buildFilteredDataRequest (limit : Int) (offset : Int) (filters : Filters) :
    RequestParams :=
  { limitParam := some (toString limit)
    offsetParam := some (toString offset)
    filtersParam := if filters = ∅ then none else some (serializeFilters filters) }

/-! ### Export issuance vs. later filter changes (DataTable.handleExport)

`DataTable.handleExport(format, limit)` calls
`apiService.exportCSV(limit, 0, filters)` (resp. `exportExcel`) with the
`filters` state current at that moment; the filters are serialized into the
request URL before the `fetch` is started.  We model the view's filter state
together with the list of requests already issued.
-/

/-- View filter state plus the export requests issued so far. -/
structure ExportModel where
  filters : Filters
  issued : List RequestParams
deriving DecidableEq

/-- Events relevant to an export's independence from the view: a filter
change, or `handleExport` with either format. -/
inductive ExportEvent where
  | changeFilters (f : Filters) : ExportEvent
  | exportCsv (limit : Option Int) : ExportEvent
  | exportExcel (limit : Option Int) : ExportEvent
deriving DecidableEq

/-- One step: a filter change replaces the filters; `handleExport` appends
the request built from the *current* filters (with `offset = 0`). -/
def stepExport (s : ExportModel) : ExportEvent → ExportModel
  | .changeFilters f => { s with filters := f }
  | .exportCsv lim => { s with issued := s.issued ++ [buildCsvRequest lim (some 0) s.filters] }
  | .exportExcel lim =>
      { s with issued := s.issued ++ [buildExcelRequest lim (some 0) s.filters] }

/-- Run a sequence of export-model events. -/
def runExport (s : ExportModel) (evs : List ExportEvent) : ExportModel :=
  evs.foldl stepExport s

/-- An event is a pure filter change (no export issuance). -/
def isFilterChange : ExportEvent → Prop
  | .changeFilters _ => True
  | _ => False

/-! ## Reachable filter states (SlicerPanel.tsx + ColumnSlicer.tsx)

The filters start as `{}`; every update goes through
`SlicerPanel.handleColumnFilterChange` — from a `ColumnSlicer` rendered for a
column of the dataset's column list, or from a filter tag's remove button
(whose column is a key of the current filters) — or through
`handleClearAllFilters`.
-/

/-- Filter objects reachable through the slicer UI for a dataset with column
list `cols`. -/
inductive ReachableFilters (cols : List String) : Filters → Prop
  | init : ReachableFilters cols ∅
  | change (fs : Filters) (c : String) (vs : List String) :
      ReachableFilters cols fs → c ∈ cols →
      ReachableFilters cols (handleColumnFilterChange fs c vs)
  | removeTag (fs : Filters) (c : String) (vs : List String) :
      ReachableFilters cols fs → (c, vs) ∈ fs →
      ReachableFilters cols (handleColumnFilterChange fs c [])
  | clearAll (fs : Filters) :
      ReachableFilters cols fs → ReachableFilters cols ∅

/-! ## apiService error handling (api.ts)

Every method wraps its body in `try { … } catch { return error-as-value }`.
We embed the body in an exception monad (`Except String`) mirroring the JS
throw points — the `fetch` itself (network failure), the explicit `throw` on
a non-OK status, `response.json()` on a malformed body, `response.blob()` —
and each method as the total function produced by the surrounding catch.
-/

/-- The parsed JSON body of a response: the optional `detail` field used for
error messages, and an opaque payload. -/
structure BodyV where
  detail : Option String
  payload : String
deriving DecidableEq

/-- A completed HTTP response: `response.ok`, the string
`` `HTTP ${response.status}: ${response.statusText}` ``, and the outcomes of
`response.json()` and `response.blob()`. -/
structure RespData where
  ok : Bool
  statusMsg : String
  json : Except String BodyV
  blobr : Except String String

/-- Outcome of a `fetch` call: the promise rejects (network failure) or a
response arrives. -/
inductive FetchOutcome where
  | netFail (msg : String) : FetchOutcome
  | success (r : RespData) : FetchOutcome

/-- `await fetch(url)`. -/
def fetchM : FetchOutcome → Except String RespData
  | .netFail m => .error m
  | .success r => .ok r

/-- `await response.json()`. -/
def jsonM (r : RespData) : Except String BodyV := r.json

/-- `await response.blob()`. -/
def blobM (r : RespData) : Except String String := r.blobr

/-- `errorData.detail || fallback` (JS `||`: `undefined` and `""` are
falsy). -/
def detailOr (d : Option String) (fallback : String) : String :=
  match d with
  | some s => if s = "" then fallback else s
  | none => fallback

/-- `ApiResponse<T>` from api.ts: `data` on success, `error` on failure. -/
structure ApiValue where
  data : Option String := none
  error : Option String := none
deriving DecidableEq

/-- `{ success: boolean; error?: string }` returned by the export methods. -/
structure ExportValue where
  success : Bool
  error : Option String := none
deriving DecidableEq

/-- The surrounding `try`/`catch`: an inner exception becomes
`{ error: message }`. -/
def runApiCatch (m : Except String String) : ApiValue :=
  match m with
  | .ok d => { data := some d }
  | .error e => { error := some e }

/-- The export methods' `try`/`catch`: an inner exception becomes
`{ success: false, error: message }`. -/
def runExportCatch (m : Except String String) : ExportValue :=
  match m with
  | .ok _ => { success := true }
  | .error e => { success := false, error := some e }

/-- `apiService.checkHealth`: non-OK status throws the raw HTTP message
(no body read), then the body is parsed. -/
def checkHealth (o : FetchOutcome) : ApiValue :=
  runApiCatch (do
    let r ← fetchM o
    if !r.ok then throw r.statusMsg
    let b ← jsonM r
    pure b.payload)

/-- `apiService.loadParquet`: non-OK status reads the error body and throws
`errorData.detail || HTTP message`. -/
def loadParquet (o : FetchOutcome) : ApiValue :=
  runApiCatch (do
    let r ← fetchM o
    if !r.ok then
      let b ← jsonM r
      throw (detailOr b.detail r.statusMsg)
    let b ← jsonM r
    pure b.payload)

/-- `apiService.getData` (same shape as `loadParquet`). -/
def getData (o : FetchOutcome) : ApiValue :=
  runApiCatch (do
    let r ← fetchM o
    if !r.ok then
      let b ← jsonM r
      throw (detailOr b.detail r.statusMsg)
    let b ← jsonM r
    pure b.payload)

/-- `apiService.getParquetFiles` (same shape). -/
def getParquetFiles (o : FetchOutcome) : ApiValue :=
  runApiCatch (do
    let r ← fetchM o
    if !r.ok then
      let b ← jsonM r
      throw (detailOr b.detail r.statusMsg)
    let b ← jsonM r
    pure b.payload)

/-- `apiService.getColumnValues` (same shape). -/
def getColumnValues (o : FetchOutcome) : ApiValue :=
  runApiCatch (do
    let r ← fetchM o
    if !r.ok then
      let b ← jsonM r
      throw (detailOr b.detail r.statusMsg)
    let b ← jsonM r
    pure b.payload)

/-- `apiService.getFilteredData` (same shape). -/
def getFilteredData (o : FetchOutcome) : ApiValue :=
  runApiCatch (do
    let r ← fetchM o
    if !r.ok then
      let b ← jsonM r
      throw (detailOr b.detail r.statusMsg)
    let b ← jsonM r
    pure b.payload)

/-- `apiService.exportCSV` download path: non-OK status reads the error body
and throws; an OK response reads the blob (the DOM download steps do not
throw) and reports `{ success: true }`. -/
def exportCSV (o : FetchOutcome) : ExportValue :=
  runExportCatch (do
    let r ← fetchM o
    if !r.ok then
      let b ← jsonM r
      throw (detailOr b.detail r.statusMsg)
    let bl ← blobM r
    pure bl)

/-- `apiService.exportExcel` (same shape as `exportCSV`). -/
def exportExcel (o : FetchOutcome) : ExportValue :=
  runExportCatch (do
    let r ← fetchM o
    if !r.ok then
      let b ← jsonM r
      throw (detailOr b.detail r.statusMsg)
    let bl ← blobM r
    pure bl)

/-- Is an `Except` value an exception? -/
def exIsErr {β : Type} : Except String β → Bool
  | .error _ => true
  | .ok _ => false

/-- The failure outcomes named by the claim for the JSON-returning methods:
network failure, non-OK HTTP status, or malformed body. -/
def fetchFails : FetchOutcome → Bool
  | .netFail _ => true
  | .success r => !r.ok || exIsErr r.json

/-- The failure outcomes observable by the export methods, which read the
error body on a non-OK status and the blob (never the JSON body) on an OK
one. -/
def exportFails : FetchOutcome → Bool
  | .netFail _ => true
  | .success r => !r.ok || exIsErr r.blobr

/-! ## Concrete fixtures used to instantiate the theorems -/

/-- A freshly mounted view over a 10-row dataset. -/
def smallView : ViewModel := initView [1] 10

/-- A mounted view over 150 filtered rows (so two pages of 100). -/
def pagedView : ViewModel := { st := initTable [1] 150, pending := [], errors := [] }

/-- A view with one outstanding request. -/
def busyView : ViewModel :=
  { st := initTable [1] 10
    pending := [{ page := 1, limit := 100, offset := 0, filters := ∅ }]
    errors := [] }

/-- Overlapping-fetch scenario: a filter change to `region=east` (request 0),
then a filter change to `region=west` (request 1); request 1's response
(`[2]`, 1 row) arrives first, request 0's response (`[3]`, 7 rows) arrives
later. -/
def staleTrace : List ViewEvent :=
  [.filtersChange [("region", ["east"])],
   .filtersChange [("region", ["west"])],
   .arrive 1 (.ok [2] 1),
   .arrive 0 (.ok [3] 7)]

/-- The view after running the overlapping-fetch scenario. -/
def staleResult : ViewModel := runView smallView staleTrace

/-! # Theorems -/

/-- Claim C1, counterexample.  `loadPage` installs every response it receives
with no staleness check: in `staleTrace` the most recently issued request is
request 1 (filters `region=west`, response `[2]` with 1 row), yet after its
response the stale response of the earlier-issued request 0 arrives and
overwrites both the displayed data and the row count — the view ends showing
`[3]` / 7 rows, not request 1's `[2]` / 1 row.  "Last issued wins" fails;
the code implements "last completed wins". -/
theorem c1_counterexample :
    staleResult.st.data = [3] ∧ staleResult.st.filteredRows = 7 ∧
    staleResult.st.data ≠ [2] ∧ staleResult.st.filteredRows ≠ 1 := by
  refine ⟨rfl, rfl, ?_, ?_⟩ <;> decide

/-- Claim C1, amended: overlapping fetches are resolved in completion order,
not issue order — every successful response that arrives unconditionally
overwrites the displayed data, page and row count (`setData`,
`setCurrentPage(page)`, `setFilteredRows`) and clears `loading`, regardless
of any more recently issued request. -/
theorem c1_last_completed_wins (m : ViewModel) (i : Nat) (req : FetchReq)
    (d : List Row) (fr : Nat) (h : m.pending[i]? = some req) :
    (stepView m (.arrive i (.ok d fr))).st.data = d ∧
    (stepView m (.arrive i (.ok d fr))).st.filteredRows = fr ∧
    (stepView m (.arrive i (.ok d fr))).st.currentPage = req.page ∧
    (stepView m (.arrive i (.ok d fr))).st.loading = false := by
  simp [stepView, h]

/-- Witness for `c1_last_completed_wins` at a concrete view with one
outstanding request. -/
theorem c1_last_completed_wins_witness :
    (stepView busyView (.arrive 0 (.ok [4] 2))).st.data = [4] ∧
    (stepView busyView (.arrive 0 (.ok [4] 2))).st.filteredRows = 2 ∧
    (stepView busyView (.arrive 0 (.ok [4] 2))).st.currentPage = 1 ∧
    (stepView busyView (.arrive 0 (.ok [4] 2))).st.loading = false :=
  c1_last_completed_wins busyView 0 { page := 1, limit := 100, offset := 0, filters := ∅ }
    [4] 2 (by decide)

/-- Claim C3: `handleFiltersChange` resets the page to 1 and issues the fetch
with the new filters and offset `(1 - 1) * pageSize = 0`. -/
theorem c3_filter_change_resets_offset (m : ViewModel) (f : Filters) :
    (stepView m (.filtersChange f)).st.currentPage = 1 ∧
    (stepView m (.filtersChange f)).st.filters = f ∧
    (stepView m (.filtersChange f)).pending
      = m.pending ++ [{ page := 1, limit := m.st.pageSize, offset := 0, filters := f }] := by
  simp [stepView, issueLoadPage]

/-- Claim C4: a successful `FileUpload.handleLoadFile` — whatever the page or
filters active before — leaves a freshly mounted `DataTable` whose state has
`currentPage = 1` (offset `(1-1)*pageSize = 0`) and empty filters: the
`loading` render gate unmounts the old instance and a new one mounts with the
`useState` initial values. -/
theorem c4_load_resets_view (s : AppState) (d : DataResponse) :
    (runApp s (loadFileSuccess d)).table = some (initTable d.data d.total_rows) ∧
    (initTable d.data d.total_rows).currentPage = 1 ∧
    (initTable d.data d.total_rows).filters = ∅ ∧
    ((initTable d.data d.total_rows).currentPage - 1) * 100 = 0 := by
  refine ⟨?_, rfl, rfl, rfl⟩
  rcases s with ⟨sd, sl, se, st⟩
  cases sd <;> simp [runApp, loadFileSuccess, stepApp, reconcile]

/-- Claim C5: a failed fetch reaches `loadPage`'s catch, which calls
`onError`; `App.handleError` then sets the error and clears `data`, so the
`DataTable` unmounts — the prior `Ready` data is not retained, only the error
is shown. -/
theorem c5_error_clears_view (m : ViewModel) (i : Nat) (req : FetchReq) (e : String)
    (h : m.pending[i]? = some req) (s : AppState) :
    (stepView m (.arrive i (.err e))).errors = m.errors ++ [e] ∧
    (stepApp s (.appError e)).data = none ∧
    (stepApp s (.appError e)).error = some e ∧
    (stepApp s (.appError e)).table = none := by
  refine ⟨by simp [stepView, h], ?_, ?_, ?_⟩ <;>
    rcases s with ⟨sd, sl, se, st⟩ <;> cases sl <;> simp [stepApp, reconcile]

/-- Witness for `c5_error_clears_view` at a concrete view and app state. -/
theorem c5_error_clears_view_witness :
    (stepView busyView (.arrive 0 (.err "boom"))).errors = [] ++ ["boom"] ∧
    (stepApp ⟨some ⟨[1], ["a"], 10⟩, false, none, some (initTable [1] 10)⟩
        (.appError "boom")).data = none ∧
    (stepApp ⟨some ⟨[1], ["a"], 10⟩, false, none, some (initTable [1] 10)⟩
        (.appError "boom")).error = some "boom" ∧
    (stepApp ⟨some ⟨[1], ["a"], 10⟩, false, none, some (initTable [1] 10)⟩
        (.appError "boom")).table = none :=
  c5_error_clears_view busyView 0 { page := 1, limit := 100, offset := 0, filters := ∅ }
    "boom" (by decide) _

/-- Pure filter changes never touch the list of already issued export
requests. -/
theorem runExport_filterChanges_issued (evs : List ExportEvent) :
    ∀ s : ExportModel, (∀ e ∈ evs, isFilterChange e) → (runExport s evs).issued = s.issued := by
  induction evs with
  | nil => intro s _; rfl
  | cons e rest ih =>
      intro s h
      cases e with
      | changeFilters f =>
          have : runExport s (.changeFilters f :: rest) = runExport { s with filters := f } rest := rfl
          rw [this, ih _ (fun e he => h e (List.mem_cons_of_mem _ he))]
      | exportCsv lim => exact absurd (h _ (List.mem_cons_self _ _)) (fun hc => hc)
      | exportExcel lim => exact absurd (h _ (List.mem_cons_self _ _)) (fun hc => hc)

/-- Claim C6: `DataTable.handleExport` serializes the filters current at the
moment the export is issued into the request (`exportCSV(limit, 0, filters)` /
`exportExcel(limit, 0, filters)`); any sequence of later filter changes
leaves the issued request — its `filters` URL parameter included —
unchanged. -/
theorem c6_export_snapshot (s : ExportModel) (lim : Option Int) (evs : List ExportEvent)
    (h : ∀ e ∈ evs, isFilterChange e) :
    (runExport s (.exportCsv lim :: evs)).issued
        = s.issued ++ [buildCsvRequest lim (some 0) s.filters] ∧
    (runExport s (.exportExcel lim :: evs)).issued
        = s.issued ++ [buildExcelRequest lim (some 0) s.filters] := by
  constructor
  · have : runExport s (.exportCsv lim :: evs) = runExport (stepExport s (.exportCsv lim)) evs := rfl
    rw [this, runExport_filterChanges_issued evs _ h]
    rfl
  · have : runExport s (.exportExcel lim :: evs)
        = runExport (stepExport s (.exportExcel lim)) evs := rfl
    rw [this, runExport_filterChanges_issued evs _ h]
    rfl

/-- Witness for `c6_export_snapshot`: an export under `region=east` followed
by a filter change to `region=west` still carries the `east` snapshot. -/
theorem c6_export_snapshot_witness :
    (runExport ⟨[("region", ["east"])], []⟩
        (.exportCsv (some 5) :: [.changeFilters [("region", ["west"])]])).issued
      = [] ++ [buildCsvRequest (some 5) (some 0) [("region", ["east"])]] ∧
    (runExport ⟨[("region", ["east"])], []⟩
        (.exportExcel (some 5) :: [.changeFilters [("region", ["west"])]])).issued
      = [] ++ [buildExcelRequest (some 5) (some 0) [("region", ["east"])]] :=
  c6_export_snapshot ⟨[("region", ["east"])], []⟩ (some 5)
    [.changeFilters [("region", ["west"])]]
    (by intro e he; simp at he; subst he; trivial)

/-- Claim C7: `handlePageChange(p)` issues `getFilteredData(pageSize,
(p - 1) * pageSize)` exactly when `1 ≤ p ≤ totalPages` and `p` differs from
the current page, and issues nothing otherwise; `totalPages` is the code's
`Math.ceil(filteredRows / pageSize)` — the least page count covering all
filtered rows. -/
theorem c7_page_navigation (m : ViewModel) (p : Nat) (h : 0 < m.st.pageSize) :
    (1 ≤ p ∧ p ≤ totalPages m.st ∧ p ≠ m.st.currentPage →
        (stepView m (.pageChange p)).pending
          = m.pending ++ [{ page := p, limit := m.st.pageSize,
                            offset := (p - 1) * m.st.pageSize, filters := m.st.filters }]) ∧
    (¬(1 ≤ p ∧ p ≤ totalPages m.st ∧ p ≠ m.st.currentPage) →
        stepView m (.pageChange p) = m) ∧
    m.st.filteredRows ≤ totalPages m.st * m.st.pageSize ∧
    totalPages m.st * m.st.pageSize < m.st.filteredRows + m.st.pageSize := by
  refine ⟨?_, ?_, ?_, ?_⟩
  · intro hg
    simp only [stepView]
    rw [if_pos hg]
    rfl
  · intro hg
    simp only [stepView]
    rw [if_neg hg]
  · have hd := Nat.div_add_mod (m.st.filteredRows + m.st.pageSize - 1) m.st.pageSize
    have hm := Nat.mod_lt (m.st.filteredRows + m.st.pageSize - 1) h
    rw [Nat.mul_comm] at hd
    unfold totalPages
    omega
  · have hd := Nat.div_add_mod (m.st.filteredRows + m.st.pageSize - 1) m.st.pageSize
    have hm := Nat.mod_lt (m.st.filteredRows + m.st.pageSize - 1) h
    rw [Nat.mul_comm] at hd
    unfold totalPages
    omega

/-- Witness for `c7_page_navigation`: with 150 filtered rows and page size
100, navigating from page 1 to page 2 issues offset 100 / limit 100. -/
theorem c7_page_navigation_witness :
    (stepView pagedView (.pageChange 2)).pending
      = pagedView.pending ++ [{ page := 2, limit := pagedView.st.pageSize,
                                offset := (2 - 1) * pagedView.st.pageSize,
                                filters := pagedView.st.filters }] :=
  (c7_page_navigation pagedView 2 (by decide)).1 (by decide)


/-- An entry of `setKey fs c vs` is either the new binding or an old one. -/
theorem mem_setKey {c : String} {vs : List String} {p : String × List String} :
    ∀ {fs : List (String × List String)}, p ∈ setKey fs c vs → p = (c, vs) ∨ p ∈ fs := by
  intro fs
  induction fs with
  | nil =>
      intro hp
      simp only [setKey] at hp
      exact Or.inl (List.mem_singleton.mp hp)
  | cons q rest ih =>
      intro hp
      rcases q with ⟨k, v⟩
      by_cases hq : k = c
      · simp only [setKey, if_pos hq] at hp
        rcases List.mem_cons.mp hp with hp | hp
        · exact Or.inl hp
        · exact Or.inr (List.mem_cons_of_mem _ hp)
      · simp only [setKey, if_neg hq] at hp
        rcases List.mem_cons.mp hp with hp | hp
        · exact Or.inr (List.mem_cons.mpr (Or.inl hp))
        · rcases ih hp with h | h
          · exact Or.inl h
          · exact Or.inr (List.mem_cons_of_mem _ h)

/-- An entry of `delKey fs c` was an entry of `fs`. -/
theorem mem_delKey {fs : List (String × List String)} {c : String}
    {p : String × List String} (hp : p ∈ delKey fs c) : p ∈ fs :=
  List.mem_of_mem_filter hp

/-- Claim C8: every filter object reachable through the slicer UI is
well-formed — each key is a column of the dataset's column list, each key
maps to a non-empty selection (an empty selection deletes the key) — and an
empty filter object is omitted from the `getFilteredData` request
parameters. -/
theorem c8_reachable_filters_wf (cols : List String) (fs : Filters)
    (h : ReachableFilters cols fs) :
    (∀ p ∈ (fs : List (String × List String)), p.1 ∈ cols ∧ p.2 ≠ []) ∧
    (fs = ∅ → ∀ lim off : Int, (buildFilteredDataRequest lim off fs).filtersParam = none) := by
  have hreq : ∀ gs : Filters, gs = ∅ →
      ∀ lim off : Int, (buildFilteredDataRequest lim off gs).filtersParam = none := by
    intro gs hgs lim off
    simp [buildFilteredDataRequest, hgs]
  induction h with
  | init => exact ⟨fun p hp => absurd hp (List.not_mem_nil p), hreq _⟩
  | change fs c vs hr hc ih =>
      refine ⟨?_, hreq _⟩
      intro p hp
      by_cases hvs : vs = []
      · exact ih.1 p (mem_delKey (by simpa [handleColumnFilterChange, hvs] using hp))
      · rcases mem_setKey (by simpa [handleColumnFilterChange, hvs] using hp) with hpe | hpm
        · subst hpe
          exact ⟨hc, hvs⟩
        · exact ih.1 p hpm
  | removeTag fs c vs hr hm ih =>
      refine ⟨?_, hreq _⟩
      intro p hp
      exact ih.1 p (mem_delKey (by simpa [handleColumnFilterChange] using hp))
  | clearAll fs hr ih => exact ⟨fun p hp => absurd hp (List.not_mem_nil p), hreq _⟩

/-- Witness for `c8_reachable_filters_wf`: selecting `east` on the `region`
slicer of a `region`/`amount` dataset yields a well-formed filter object. -/
theorem c8_reachable_filters_wf_witness :
    (("region", ["east"]) : String × List String).1 ∈ ["region", "amount"] ∧
    (("region", ["east"]) : String × List String).2 ≠ [] :=
  (c8_reachable_filters_wf ["region", "amount"]
      (handleColumnFilterChange ∅ "region" ["east"])
      (ReachableFilters.change ∅ "region" ["east"] ReachableFilters.init (by decide))).1
    ("region", ["east"]) (by simp only [handleColumnFilterChange, setKey]; exact List.Mem.head _)

/-- Claim C9: every `apiService` method is total over fetch outcomes and
returns failures as values — for the JSON methods the result carries `error`
exactly on a network failure, a non-OK status, or a malformed body it reads,
and carries `data` otherwise; the export methods report
`{ success: false, error }` exactly on a network failure, a non-OK status, or
a failing blob read, and `{ success: true }` otherwise.  Each method is a
total function of the outcome: the surrounding `try`/`catch` converts every
inner exception into the returned value, so no exception escapes. -/
theorem c9_api_error_totality (o : FetchOutcome) :
    ((checkHealth o).error.isSome = fetchFails o) ∧
    ((checkHealth o).data.isSome = !fetchFails o) ∧
    ((loadParquet o).error.isSome = fetchFails o) ∧
    ((loadParquet o).data.isSome = !fetchFails o) ∧
    ((getData o).error.isSome = fetchFails o) ∧
    ((getData o).data.isSome = !fetchFails o) ∧
    ((getParquetFiles o).error.isSome = fetchFails o) ∧
    ((getParquetFiles o).data.isSome = !fetchFails o) ∧
    ((getColumnValues o).error.isSome = fetchFails o) ∧
    ((getColumnValues o).data.isSome = !fetchFails o) ∧
    ((getFilteredData o).error.isSome = fetchFails o) ∧
    ((getFilteredData o).data.isSome = !fetchFails o) ∧
    ((exportCSV o).success = !exportFails o) ∧
    ((exportCSV o).error.isSome = exportFails o) ∧
    ((exportExcel o).success = !exportFails o) ∧
    ((exportExcel o).error.isSome = exportFails o) := by
  cases o with
  | netFail m =>
      exact ⟨rfl, rfl, rfl, rfl, rfl, rfl, rfl, rfl, rfl, rfl, rfl, rfl, rfl, rfl, rfl, rfl⟩
  | success r =>
      rcases r with ⟨ok, sm, js, bl⟩
      cases ok <;> cases js <;> cases bl <;>
        exact ⟨rfl, rfl, rfl, rfl, rfl, rfl, rfl, rfl, rfl, rfl, rfl, rfl, rfl, rfl, rfl, rfl⟩

/-- The Excel warning guard of `handleExport` fires exactly when the
selection's effective row count exceeds `EXCEL_MAX_ROWS`. -/
theorem excelWarnCondIff (totalRows : Nat) (choice : ExportChoice) :
    (EXCEL_MAX_ROWS < (totalRows : Int) ∧ limitNoneOrExceeds (computeLimit choice) = true)
      ↔ EXCEL_MAX_ROWS < getEffectiveRows totalRows choice := by
  cases choice with
  | all =>
      simp [computeLimit, limitNoneOrExceeds, getEffectiveRows]
  | custom s =>
      cases hp : parseIntM s with
      | none =>
          simp [computeLimit, hp, limitNoneOrExceeds, getEffectiveRows]
      | some n =>
          by_cases h0 : n = 0
          · subst h0
            simp [computeLimit, hp, limitNoneOrExceeds, getEffectiveRows]
          · simp only [computeLimit, hp, if_neg h0, limitNoneOrExceeds,
              getEffectiveRows, decide_eq_true_eq, lt_min_iff]
            exact ⟨fun h => ⟨h.2, h.1⟩, fun h => ⟨h.2, h.1⟩⟩
  | preset n =>
      simp only [computeLimit, limitNoneOrExceeds, getEffectiveRows,
        decide_eq_true_eq, lt_min_iff]
      exact ⟨fun h => ⟨h.2, h.1⟩, fun h => ⟨h.2, h.1⟩⟩

/-- Claim C2: for an Excel export, whenever the rows the selection would
export exceed the structural cap of exactly 1,048,575 rows, `handleExport`
shows the warning (an explicit truncation signal — no export is issued
silently) and the modal's confirm button issues the export truncated to
exactly `EXCEL_MAX_ROWS = min(requested, EXCEL_MAX_ROWS)` rows; when the
selection is within the cap, the export is issued with the selection's own
limit, which already equals `min(requested, EXCEL_MAX_ROWS)`. -/
theorem c2_excel_row_cap (totalRows : Nat) (choice : ExportChoice) :
    (EXCEL_MAX_ROWS < getEffectiveRows totalRows choice →
        handleExportButton .excel totalRows choice = .warn ∧
        warnModalExcelConfirm = .issue .excel (some EXCEL_MAX_ROWS) ∧
        min (getEffectiveRows totalRows choice) EXCEL_MAX_ROWS = EXCEL_MAX_ROWS) ∧
    (getEffectiveRows totalRows choice ≤ EXCEL_MAX_ROWS →
        handleExportButton .excel totalRows choice = .issue .excel (computeLimit choice) ∧
        min (getEffectiveRows totalRows choice) EXCEL_MAX_ROWS
          = getEffectiveRows totalRows choice) := by
  constructor
  · intro hlt
    refine ⟨?_, rfl, min_eq_right hlt.le⟩
    unfold handleExportButton
    rw [if_pos ⟨rfl, (excelWarnCondIff totalRows choice).mpr hlt⟩]
  · intro hle
    refine ⟨?_, min_eq_left hle⟩
    unfold handleExportButton
    rw [if_neg (fun hc =>
      absurd ((excelWarnCondIff totalRows choice).mp ⟨hc.2.1, hc.2.2⟩) (not_lt.mpr hle))]

/-- Witness for `c2_excel_row_cap`: the spec's fixture — 2,000,000 filtered
rows, requested limit 2,000,000 — warns, and the confirmed Excel export
carries exactly 1,048,575 rows. -/
theorem c2_excel_row_cap_witness :
    handleExportButton .excel 2000000 (.custom "2000000") = .warn ∧
    warnModalExcelConfirm = .issue .excel (some 1048575) ∧
    min (getEffectiveRows 2000000 (.custom "2000000")) EXCEL_MAX_ROWS = 1048575 :=
  (c2_excel_row_cap 2000000 (.custom "2000000")).1 (by decide)

/-- Claim C10: with the custom row-limit option, a typed value that parses to
`0` or fails to parse makes `parseInt(customLimit) || undefined` yield
`undefined` — the export is issued with no `limit` URL parameter at all
(every filtered row), never with a limit of 0 rows. -/
theorem c10_custom_zero_means_no_limit (s : String) (f : Filters)
    (h : parseIntM s = none ∨ parseIntM s = some 0) :
    computeLimit (.custom s) = none ∧
    computeLimit (.custom s) ≠ some 0 ∧
    (buildCsvRequest (computeLimit (.custom s)) (some 0) f).limitParam = none ∧
    (buildExcelRequest (computeLimit (.custom s)) (some 0) f).limitParam = none := by
  have hc : computeLimit (.custom s) = none := by
    rcases h with h | h <;> simp [computeLimit, h]
  exact ⟨hc, by simp [hc], by simp [buildCsvRequest, hc], by simp [buildExcelRequest, hc]⟩

/-- Witness for `c10_custom_zero_means_no_limit` at the typed value `"0"`. -/
theorem c10_custom_zero_means_no_limit_witness :
    computeLimit (.custom "0") = none ∧
    computeLimit (.custom "0") ≠ some 0 ∧
    (buildCsvRequest (computeLimit (.custom "0")) (some 0) ∅).limitParam = none ∧
    (buildExcelRequest (computeLimit (.custom "0")) (some 0) ∅).limitParam = none :=
  c10_custom_zero_means_no_limit "0" ∅ (Or.inr (by decide))
